import Mathlib

/-!
Shallow Lean embedding of the CRYPTOPAY service (src/cryp.py), covering the
payment lifecycle manager (`create_payment`, `webhook`), the exchange-rate
cache (`get_exchange_rates`), the amount validator
(`validate_payment_amount`) and the rate-limiting decorator (`rate_limit`).

Modelling conventions:
- instants (`time.time()`, `datetime.now()`) are rationals;
- monetary amounts and exchange rates are rationals;
- external collaborators (the Coinbase Commerce charge client, the webhook
  signature verifier `Webhook.construct_event`, the HTTP rate fetch) are
  oracle parameters of type `Except String _`, an `.error` value standing
  for the exception the Python call would raise;
- a Python dict keyed by strings is an association list, first match wins;
- JSON payment-history records are kept at the value level (the structure
  `PaymentInfo`), ignoring string serialization.
-/

namespace CryptoPay

/-- The `PaymentStatus` enum of src/cryp.py (lines 49-53). -/
inductive PaymentStatus
  | pending
  | completed
  | failed
  | expired
deriving DecidableEq, Repr

/-- The `PaymentInfo` dataclass of src/cryp.py (lines 60-71), extended with
the `completed_at` key that the webhook handler (line 321) adds to the stored
dict; a record fresh from `create_payment` has `completed_at = none`. -/
structure PaymentInfo where
  id : String
  amount : ℚ
  currency : String
  crypto : String
  status : PaymentStatus
  timestamp : ℚ
  payment_url : String
  exchange_rate : Option ℚ := none
  customer_email : Option String := none
  description : Option String := none
  completed_at : Option ℚ := none
deriving DecidableEq, Repr

/-- Modelled from the spec: the Currency Catalog (§2, §4.1) — the
`SUPPORTED_CURRENCIES` set and the `SUPPORTED_CRYPTOS` mapping from asset
code to display metadata (its `"name"` field), which src/cryp.py references
(lines 188-189, 206, 212, 215) but whose definition is not under src/. -/
structure Catalog where
  currencies : List String
  cryptos : List (String × String)
deriving DecidableEq, Repr

/-- Lookup of `SUPPORTED_CRYPTOS[k]["name"]`: `none` models the `KeyError`
raised when `k` is not a key of the dict. -/
def Catalog.cryptoName (cat : Catalog) (k : String) : Option String :=
  (cat.cryptos.find? (fun p => p.1 = k)).map (·.2)

/-- Membership test `k in SUPPORTED_CRYPTOS` (src/cryp.py line 212). -/
def Catalog.hasCrypto (cat : Catalog) (k : String) : Bool :=
  (cat.cryptos.find? (fun p => p.1 = k)).isSome

/-- The event object returned by `Webhook.construct_event` on a validly
signed body: its `type` and the `id` of its `data` charge payload
(src/cryp.py lines 306-314). -/
structure WebhookEvent where
  type : String
  chargeId : String
deriving DecidableEq, Repr

/-- The status-update loop of the webhook handler (src/cryp.py lines
318-322): the first stored record whose `id` equals the charge id of the event
gets `status := completed` and `completed_at := now` (the loop breaks after
the first match); every other record is untouched. -/
def confirmUpdate (history : List PaymentInfo) (cid : String) (now : ℚ) :
    List PaymentInfo :=
  match history with
  | [] => []
  | p :: rest =>
    if p.id = cid then
      { p with status := .completed, completed_at := some now } :: rest
    else
      p :: confirmUpdate rest cid now

/-- The `/webhook` handler (src/cryp.py lines 302-330). `constructEvent` is
the outcome of `Webhook.construct_event` on the raw body, signature header
and shared secret: `.error` models the exception raised on an invalid
signature (or malformed payload), which the bare `except` turns into a 500
response. Returns (resulting stored history, success flag, HTTP status). -/
def webhook (constructEvent : Except String WebhookEvent)
    (history : List PaymentInfo) (now : ℚ) :
    List PaymentInfo × Bool × Nat :=
  match constructEvent with
  | .error _ => (history, false, 500)
  | .ok ev =>
    if ev.type = "charge:confirmed" then
      (confirmUpdate history ev.chargeId now, true, 200)
    else
      (history, true, 200)

/-- The `CACHE_DURATION` constant (src/cryp.py line 46), in seconds. -/
def CACHE_DURATION : ℚ := 3600

/-- The `exchange_rate_cache` module-level dict (src/cryp.py lines 74-77):
`rates` mapping and fetch `timestamp`. Its initial value is
`⟨[], 0⟩`. -/
structure RateCache where
  rates : List (String × ℚ)
  timestamp : ℚ
deriving DecidableEq, Repr

/-- The function `get_exchange_rates` (src/cryp.py lines 126-139). `fetch`
is the outcome of `requests.get(EXCHANGE_RATE_API).json()[rates]`:
`.error` models any exception (network failure, malformed response), which
the handler absorbs, returning the cached rates unchanged. Returns (the
rates handed to the caller, the cache state afterwards). -/
def get_exchange_rates (fetch : Except String (List (String × ℚ)))
    (cache : RateCache) (now : ℚ) : List (String × ℚ) × RateCache :=
  if now - cache.timestamp < CACHE_DURATION then
    (cache.rates, cache)
  else
    match fetch with
    | .ok rates => (rates, ⟨rates, now⟩)
    | .error _ => (cache.rates, cache)

/-- Dict lookup `rates.get(currency)` over the association-list model. -/
def lookupRate (rates : List (String × ℚ)) (c : String) : Option ℚ :=
  (rates.find? (fun p => p.1 = c)).map (·.2)

/-- The JSON value found at `data.get(amount, 0)` in the request body
(src/cryp.py line 202): absent, a numeric value (a JSON number or a numeric
string, both convert under Python `float`), or a non-numeric value on which
`float` raises. -/
inductive AmountField
  | absent
  | numeric (q : ℚ)
  | nonNumeric (s : String)
deriving DecidableEq, Repr

/-- Python `float(data.get(amount, 0))` (src/cryp.py line 202): an absent
field defaults to `0`; a non-numeric value raises `ValueError`, modelled as
`.error`. -/
def toFloat : AmountField → Except String ℚ
  | .absent => .ok 0
  | .numeric q => .ok q
  | .nonNumeric s => .error ("could not convert string to float: " ++ s)

/-- The body of a `/create_payment` request (src/cryp.py lines 201-206):
every field the handler reads, `none` standing for an absent key. -/
structure CreateRequest where
  amount : AmountField
  currency : Option String
  crypto : Option String
  customer_email : Option String
  description : Option String
deriving DecidableEq, Repr

/-- The function `validate_payment_amount` (src/cryp.py lines 166-174) as
invoked by the route: the argument is already a float, so the inner
`float(amount)` always succeeds and the result is just `amount > 0`
(`currency` is accepted unused, as in the source). -/
def validate_payment_amount (amount : ℚ) (currency : String) : Bool :=
  decide (0 < amount)

/-- The `metadata` dict passed to `client.charge.create` (src/cryp.py lines
231-237): the `customer_id` is `hashlib.md5(email).hexdigest()` when an
email is present (`md5` is the hash oracle) and the literal anonymous otherwise;
the raw `customer_email` is also included, as are the crypto, currency and
exchange-rate fields. -/
structure ChargeMetadata where
  customer_id : String
  customer_email : Option String
  crypto : String
  currency : String
  exchange_rate : ℚ
deriving DecidableEq, Repr

/-- The argument bundle of the `client.charge.create` call (src/cryp.py
lines 223-238); `pricing_type` is a string constant (fixed price) and is
omitted. The amount is kept as a rational (the source sends `str(amount)`). -/
structure ChargeRequest where
  name : String
  description : String
  amount : ℚ
  currency : String
  metadata : ChargeMetadata
deriving DecidableEq, Repr

/-- The fields of the charge object of the provider that the handler reads:
`charge[id]` and `charge[hosted_url]`. -/
structure Charge where
  id : String
  hosted_url : String
deriving DecidableEq, Repr

/-- Evaluation of the dict read `data.get(description, default)` whose eager default
is the f-string Payment in SUPPORTED_CRYPTOS[crypto][name]
(src/cryp.py line 206). Python evaluates the default argument eagerly, so
`SUPPORTED_CRYPTOS[crypto]["name"]` is computed even when a description is
supplied; a missing key raises `KeyError`, modelled as `.error`. -/
def descriptionOf (cat : Catalog) (crypto : String) (desc : Option String) :
    Except String String :=
  match cat.cryptoName crypto with
  | none => .error ("KeyError: " ++ crypto)
  | some name => .ok (desc.getD ("Payment in " ++ name))

/-- Builds the `client.charge.create` argument bundle (src/cryp.py lines
223-238) from the request after defaulting and rate resolution. -/
def chargeRequestOf (md5 : String → String) (rates : List (String × ℚ))
    (req : CreateRequest) (amount : ℚ) (description : String) : ChargeRequest :=
  let currency := req.currency.getD "USD"
  let crypto := req.crypto.getD "BTC"
  { name := "Payment"
    description := description
    amount := amount
    currency := currency
    metadata :=
      { customer_id :=
          match req.customer_email with
          | some e => md5 e
          | none => "anonymous"
        customer_email := req.customer_email
        crypto := crypto
        currency := currency
        exchange_rate := (lookupRate rates currency).getD 1 } }

/-- The JSON response of `/create_payment`: either the success payload
(src/cryp.py lines 275-280; the QR hex, a pure function of the URL, is
omitted) or a failure with its message and HTTP status (400 for the
validation branches, 500 for the catch-all `except`). -/
inductive CreateResponse
  | success (record : PaymentInfo) (paymentUrl : String)
  | failure (error : String) (httpStatus : Nat)
deriving DecidableEq, Repr

/-- Observable outcome of one `/create_payment` call: the HTTP response,
the payment-history content after the call, and the single
`client.charge.create` invocation with its argument, when one was made. -/
structure CreateOutcome where
  response : CreateResponse
  history : List PaymentInfo
  providerCall : Option ChargeRequest
deriving DecidableEq, Repr

/-- The `/create_payment` handler (src/cryp.py lines 196-284). `cat` is the
spec-modelled Currency Catalog, `md5` the email-hash oracle, `rates` the
mapping returned by `get_exchange_rates()` at line 219, `provider` the
`client.charge.create` collaborator (`.error` models a raised exception),
`history` the stored payment history and `now` the creation instant.
Follows the evaluation order of the source: float conversion (line 202),
defaulting (lines 203-204), eager description default (line 206), amount
validation (line 209), crypto then currency membership (lines 212-216),
rate resolution with default `1.0` (line 220), the provider call, then
record construction and append (lines 257-273). Any exception reaches the
catch-all `except` and becomes a 500 response. -/
def create_payment (cat : Catalog) (md5 : String → String)
    (rates : List (String × ℚ))
    (provider : ChargeRequest → Except String Charge)
    (history : List PaymentInfo) (req : CreateRequest) (now : ℚ) :
    CreateOutcome :=
  match toFloat req.amount with
  | .error e => ⟨.failure e 500, history, none⟩
  | .ok amount =>
    let currency := req.currency.getD "USD"
    let crypto := req.crypto.getD "BTC"
    match descriptionOf cat crypto req.description with
    | .error e => ⟨.failure e 500, history, none⟩
    | .ok description =>
      if ¬ validate_payment_amount amount currency then
        ⟨.failure "Invalid amount" 400, history, none⟩
      else if ¬ cat.hasCrypto crypto then
        ⟨.failure "Unsupported cryptocurrency" 400, history, none⟩
      else if ¬ (currency ∈ cat.currencies) then
        ⟨.failure "Unsupported currency" 400, history, none⟩
      else
        let creq := chargeRequestOf md5 rates req amount description
        match provider creq with
        | .error e => ⟨.failure e 500, history, some creq⟩
        | .ok charge =>
          let record : PaymentInfo :=
            { id := charge.id
              amount := amount
              currency := currency
              crypto := crypto
              status := .pending
              timestamp := now
              payment_url := charge.hosted_url
              exchange_rate := some ((lookupRate rates currency).getD 1)
              customer_email := req.customer_email
              description := some description }
          ⟨.success record charge.hosted_url, history ++ [record], some creq⟩

/-- The `RATE_LIMIT[requests]` ceiling (src/cryp.py line 81). -/
def RATE_LIMIT_requests : Nat := 100

/-- The `RATE_LIMIT[window]` length in seconds (src/cryp.py line 82). -/
def RATE_LIMIT_window : ℚ := 3600

/-- A Python value stored in `RATE_LIMIT[ip_requests]`. The code only
ever stores lists of floats (src/cryp.py lines 118 and 120), but the prune
comprehension (lines 109-112) subtracts the value from `current_time`,
which is defined only for a numeric scalar; both shapes are represented so
the type confusion in the source can be expressed. -/
inductive PyTimes
  | scalar (t : ℚ)
  | list (ts : List ℚ)
deriving DecidableEq, Repr

/-- One evaluation of `current_time - timestamp < RATE_LIMIT[window]` in
the prune comprehension (src/cryp.py line 111): defined for a scalar,
a `TypeError` (modelled as `.error`) when the stored value is a list. -/
def pruneTest (now window : ℚ) : PyTimes → Except String Bool
  | .scalar t => .ok (decide (now - t < window))
  | .list _ =>
      .error "TypeError: unsupported operand types for subtraction: float and list"

/-- The dict comprehension of src/cryp.py lines 109-112: keeps the entries
whose recorded instant is within the window; propagates the `TypeError`
raised on the first list-valued entry. -/
def pruneEntries (now window : ℚ) :
    List (String × PyTimes) → Except String (List (String × PyTimes))
  | [] => .ok []
  | (ip, v) :: rest => do
    let keep ← pruneTest now window v
    let rest' ← pruneEntries now window rest
    if keep then return (ip, v) :: rest' else return rest'

/-- Dict lookup `RATE_LIMIT[ip_requests][ip]`. -/
def lookupTimes (d : List (String × PyTimes)) (ip : String) : Option PyTimes :=
  (d.find? (fun p => p.1 = ip)).map (·.2)

/-- Dict update the assignment `RATE_LIMIT[ip_requests][ip] = v`: replaces the value in
place when the key exists (Python dicts keep insertion order), otherwise
appends the new entry. -/
def setTimes (d : List (String × PyTimes)) (ip : String) (v : PyTimes) :
    List (String × PyTimes) :=
  match d with
  | [] => [(ip, v)]
  | (k, w) :: rest =>
    if k = ip then (k, v) :: rest else (k, w) :: setTimes rest ip v

/-- Python `len(v)`: defined for a list, a `TypeError` for a float. -/
def pyLen : PyTimes → Except String Nat
  | .list ts => .ok ts.length
  | .scalar _ => .error "TypeError: object of type float has no len"

/-- One pass through the `rate_limit` decorator body (src/cryp.py lines
102-123) for client `ip` at instant `now`, over the shared
`RATE_LIMIT[ip_requests]` state. Returns `.ok (admitted, newState)`:
`admitted = false` is the 429 "Rate limit exceeded" response. `.error`
models an exception escaping the decorator (the `try` of the wrapped route
cannot catch it); the reassignment by the comprehension has not happened
at that point, so the shared state is unchanged. -/
def rate_limit (state : List (String × PyTimes)) (ip : String) (now : ℚ) :
    Except String (Bool × List (String × PyTimes)) := do
  let pruned ← pruneEntries now RATE_LIMIT_window state
  match lookupTimes pruned ip with
  | some v =>
    let n ← pyLen v
    if n ≥ RATE_LIMIT_requests then
      return (false, pruned)
    else
      match v with
      | .list ts => return (true, setTimes pruned ip (.list (ts ++ [now])))
      | .scalar _ =>
        throw "AttributeError: float object has no attribute append"
  | none => return (true, setTimes pruned ip (.list [now]))

/-- Projection used to inspect the exchange-rate field carried by a
`/create_payment` response: the rate of the returned record on success,
`none` on failure. -/
def responseExchangeRate : CreateResponse → Option ℚ
  | .success r _ => r.exchange_rate
  | .failure _ _ => none

/-- Concrete catalog instance used for witnesses and counterexamples. -/
def catEx : Catalog := ⟨["USD", "EUR"], [("BTC", "Bitcoin"), ("ETH", "Ethereum")]⟩

/-- Concrete email-hash oracle used for witnesses and counterexamples. -/
def md5Ex : String → String := fun _ => "0123456789abcdef0123456789abcdef"

/-- Concrete charge-provider stub (as in spec §8): always succeeds with the
charge id ch_1 and its hosted URL. -/
def providerEx : ChargeRequest → Except String Charge :=
  fun _ => .ok ⟨"ch_1", "https://pay.example/ch_1"⟩

/-- Concrete charge-provider stub that always fails. -/
def providerFailEx : ChargeRequest → Except String Charge :=
  fun _ => .error "connection error"

/-- Concrete valid `/create_payment` request body. -/
def reqEx : CreateRequest :=
  ⟨.numeric 25, some "USD", some "BTC", some "a@b.c", none⟩

/-- Concrete pending payment record stored in the ledger. -/
def recPend : PaymentInfo :=
  ⟨"ch1", 25, "USD", "BTC", .pending, 0, "u", some 1, none, none, none⟩

/-- The record that `create_payment` builds from `reqEx` under `catEx`,
`md5Ex`, `providerEx`, an empty rate mapping and instant 0. -/
def recEx : PaymentInfo :=
  ⟨"ch_1", 25, "USD", "BTC", .pending, 0, "https://pay.example/ch_1",
   some 1, some "a@b.c", some "Payment in Bitcoin", none⟩

theorem confirmUpdate_confirmUpdate (h : List PaymentInfo) (cid : String)
    (t1 t2 : ℚ) :
    confirmUpdate (confirmUpdate h cid t1) cid t2 = confirmUpdate h cid t2 := by
  induction h with
  | nil => rfl
  | cons p rest ih =>
    by_cases hp : p.id = cid
    · simp [confirmUpdate, hp]
    · simp [confirmUpdate, hp, ih]

theorem confirmUpdate_of_not_mem (h : List PaymentInfo) (cid : String)
    (now : ℚ) (hno : ∀ r ∈ h, r.id ≠ cid) : confirmUpdate h cid now = h := by
  induction h with
  | nil => rfl
  | cons p rest ih =>
    have hp : p.id ≠ cid := hno p (List.mem_cons_self p rest)
    simp [confirmUpdate, hp, ih fun r hr => hno r (List.mem_cons_of_mem _ hr)]

theorem confirmUpdate_map_exchange_rate (h : List PaymentInfo) (cid : String)
    (t : ℚ) :
    (confirmUpdate h cid t).map (fun p => p.exchange_rate)
      = h.map (fun p => p.exchange_rate) := by
  induction h with
  | nil => rfl
  | cons p rest ih =>
    by_cases hp : p.id = cid <;> simp [confirmUpdate, hp, ih]

/-- C4 counterexample: a webhook request whose signature does not verify is
answered with HTTP 500 (the catch-all `except` branch), not with the 401
the claim requires. -/
theorem webhook_invalid_signature_http_500_not_401 :
    webhook (.error "invalid signature") [] 0 = ([], false, 500) ∧
    (webhook (.error "invalid signature") [] 0).2.2 ≠ 401 :=
  ⟨rfl, by decide⟩

/-- C4 (amended): for every webhook request whose signature header does not
verify against the raw body under the shared secret, the handler fails with
the generic HTTP 500 error branch (not 401), reports success = false, and
leaves the stored history unchanged; no other credential is consulted on
this endpoint. -/
theorem webhook_invalid_signature_generic_500 (e : String)
    (h : List PaymentInfo) (now : ℚ) :
    webhook (.error e) h now = (h, false, 500) := rfl

/-- C5 (code bug): from an empty rate-limiter state, the first request from
a client is admitted and records the instant as a one-element list; the
second request then raises a TypeError inside the prune comprehension,
because the comprehension subtracts a stored list from the current time.
The ceiling of 100 admitted requests per window is never reached. -/
theorem rate_limit_second_request_type_error :
    rate_limit [] "1.2.3.4" 0 = .ok (true, [("1.2.3.4", .list [0])]) ∧
    rate_limit [("1.2.3.4", .list [0])] "1.2.3.4" 1
      = .error "TypeError: unsupported operand types for subtraction: float and list" :=
  ⟨rfl, rfl⟩

/-- C8: when the rate refresh fails, `get_exchange_rates` returns the cached
snapshot unchanged (never an error), and in particular the empty mapping
when no prior snapshot exists (the initial cache `⟨[], 0⟩`). -/
theorem get_exchange_rates_failure_fallback (cache : RateCache) (now : ℚ)
    (e : String) :
    get_exchange_rates (.error e) cache now = (cache.rates, cache) ∧
    (get_exchange_rates (.error e) ⟨[], 0⟩ now).1 = [] := by
  constructor
  · unfold get_exchange_rates
    split <;> rfl
  · unfold get_exchange_rates
    split <;> rfl

/-- C9: a validly signed charge-confirmed notification whose charge id
matches no stored record succeeds (HTTP 200, success reported) and leaves
every record of the stored history unchanged. -/
theorem webhook_unknown_charge_id_noop (h : List PaymentInfo) (cid : String)
    (now : ℚ) (hno : ∀ r ∈ h, r.id ≠ cid) :
    webhook (.ok ⟨"charge:confirmed", cid⟩) h now = (h, true, 200) := by
  simp [webhook, confirmUpdate_of_not_mem h cid now hno]

/-- Witness for C9 at a concrete input: one stored record, a notification
for a different charge id. -/
theorem webhook_unknown_charge_id_noop_witness :
    webhook (.ok ⟨"charge:confirmed", "nope"⟩) [recPend] 7
      = ([recPend], true, 200) :=
  webhook_unknown_charge_id_noop [recPend] "nope" 7 (by decide)

/-- C2 counterexample: reconciling the same charge-confirmed event twice,
at instants 0 and 1, does not leave the record unchanged on the second
call — the handler re-stamps `completed_at` unconditionally, so the
duplicate invocation changes the stored record. -/
theorem webhook_duplicate_confirmation_changes_record :
    (webhook (.ok ⟨"charge:confirmed", "ch1"⟩)
        ((webhook (.ok ⟨"charge:confirmed", "ch1"⟩) [recPend] 0).1) 1).1
      ≠ (webhook (.ok ⟨"charge:confirmed", "ch1"⟩) [recPend] 0).1 := by
  decide

/-- C2 (amended): invoking the reconciliation handler twice with the same
valid charge-confirmed event yields the state a single invocation at the
second instant would produce — status Completed as after one call, but
`completed_at` re-stamped with the instant of the duplicate call; the
record is left unchanged by the second call exactly when the two calls
observe the same instant. -/
theorem webhook_duplicate_confirmation_overwrites (h : List PaymentInfo)
    (cid : String) (t1 t2 : ℚ) :
    (webhook (.ok ⟨"charge:confirmed", cid⟩)
        ((webhook (.ok ⟨"charge:confirmed", cid⟩) h t1).1) t2).1
      = (webhook (.ok ⟨"charge:confirmed", cid⟩) h t2).1 ∧
    (t1 = t2 →
      (webhook (.ok ⟨"charge:confirmed", cid⟩)
          ((webhook (.ok ⟨"charge:confirmed", cid⟩) h t1).1) t2).1
        = (webhook (.ok ⟨"charge:confirmed", cid⟩) h t1).1) := by
  constructor
  · simp [webhook, confirmUpdate_confirmUpdate]
  · rintro rfl
    simp [webhook, confirmUpdate_confirmUpdate]

/-- Witness for C2 (amended) at a concrete input: both invocations at the
same instant leave the once-reconciled state unchanged. -/
theorem webhook_duplicate_confirmation_overwrites_witness :
    (webhook (.ok ⟨"charge:confirmed", "ch1"⟩)
        ((webhook (.ok ⟨"charge:confirmed", "ch1"⟩) [recPend] 0).1) 0).1
      = (webhook (.ok ⟨"charge:confirmed", "ch1"⟩) [recPend] 0).1 :=
  (webhook_duplicate_confirmation_overwrites [recPend] "ch1" 0 0).2 rfl

/-- C10: a `/create_payment` request body that omits the currency field
behaves exactly as the same body with currency USD explicitly supplied
(whatever its crypto field holds), and a body that omits the crypto field
behaves exactly as the same body with crypto BTC explicitly supplied
(whatever its currency field holds) — so for every body omitting either
field, or both, validation and charge creation proceed with the defaulted
values instead of rejecting the request. -/
theorem create_payment_defaults_usd_btc (cat : Catalog)
    (md5 : String → String) (rates : List (String × ℚ))
    (provider : ChargeRequest → Except String Charge)
    (history : List PaymentInfo) (now : ℚ) (amt : AmountField)
    (cr cu em desc : Option String) :
    (create_payment cat md5 rates provider history ⟨amt, none, cr, em, desc⟩ now
      = create_payment cat md5 rates provider history
          ⟨amt, some "USD", cr, em, desc⟩ now) ∧
    (create_payment cat md5 rates provider history ⟨amt, cu, none, em, desc⟩ now
      = create_payment cat md5 rates provider history
          ⟨amt, cu, some "BTC", em, desc⟩ now) := ⟨rfl, rfl⟩

theorem hasCrypto_of_isSome_cryptoName (cat : Catalog) (k : String)
    (hcr : (cat.cryptoName k).isSome) : cat.hasCrypto k = true := by
  unfold Catalog.cryptoName at hcr
  unfold Catalog.hasCrypto
  simpa using hcr

/-- C1: for every request with a positive amount, a supported currency and
a supported crypto, `create_payment` either fails with the 500
provider-error response when the charge provider fails — leaving the
stored history untouched — or returns a record with status Pending
carrying the id and hosted URL issued by the provider (non-empty whenever
the provider issues non-empty ones) and appends exactly that record to the
stored history: the record is never silently dropped. -/
theorem create_payment_valid_pending_or_provider_error (cat : Catalog)
    (md5 : String → String) (rates : List (String × ℚ))
    (provider : ChargeRequest → Except String Charge)
    (history : List PaymentInfo) (req : CreateRequest) (now : ℚ) (a : ℚ)
    (hamt : toFloat req.amount = .ok a) (hpos : 0 < a)
    (hcr : (cat.cryptoName (req.crypto.getD "BTC")).isSome)
    (hcur : req.currency.getD "USD" ∈ cat.currencies)
    (hne : ∀ creq ch, provider creq = .ok ch → ch.id ≠ "" ∧ ch.hosted_url ≠ "") :
    ∃ d, descriptionOf cat (req.crypto.getD "BTC") req.description = .ok d ∧
      ((∃ e, provider (chargeRequestOf md5 rates req a d) = .error e ∧
          create_payment cat md5 rates provider history req now =
            ⟨.failure e 500, history, some (chargeRequestOf md5 rates req a d)⟩) ∨
       (∃ ch r, provider (chargeRequestOf md5 rates req a d) = .ok ch ∧
          create_payment cat md5 rates provider history req now =
            ⟨.success r ch.hosted_url, history ++ [r],
             some (chargeRequestOf md5 rates req a d)⟩ ∧
          r.status = .pending ∧ r.id = ch.id ∧ r.payment_url = ch.hosted_url ∧
          r.id ≠ "" ∧ r.payment_url ≠ "")) := by
  obtain ⟨nm, hnm⟩ := Option.isSome_iff_exists.mp hcr
  have hd : descriptionOf cat (req.crypto.getD "BTC") req.description
      = .ok (req.description.getD ("Payment in " ++ nm)) := by
    simp [descriptionOf, hnm]
  have hhas := hasCrypto_of_isSome_cryptoName cat (req.crypto.getD "BTC") hcr
  refine ⟨req.description.getD ("Payment in " ++ nm), hd, ?_⟩
  cases hp : provider (chargeRequestOf md5 rates req a
      (req.description.getD ("Payment in " ++ nm))) with
  | error e =>
    left
    exact ⟨e, rfl, by
      simp [create_payment, hamt, hd, validate_payment_amount, hpos, hhas,
        hcur, hp]⟩
  | ok ch =>
    right
    refine ⟨ch,
      { id := ch.id, amount := a, currency := req.currency.getD "USD",
        crypto := req.crypto.getD "BTC", status := .pending, timestamp := now,
        payment_url := ch.hosted_url,
        exchange_rate := some ((lookupRate rates (req.currency.getD "USD")).getD 1),
        customer_email := req.customer_email,
        description := some (req.description.getD ("Payment in " ++ nm)) },
      rfl, ?_, rfl, rfl, rfl, (hne _ _ hp).1, (hne _ _ hp).2⟩
    simp [create_payment, hamt, hd, validate_payment_amount, hpos, hhas,
      hcur, hp]

/-- Witness for C1 at a concrete input: the spec §8 scenario — amount 25,
currency USD, crypto BTC, a stub provider issuing charge ch_1. -/
theorem create_payment_valid_pending_or_provider_error_witness :
    ∃ d, descriptionOf catEx (reqEx.crypto.getD "BTC") reqEx.description = .ok d ∧
      ((∃ e, providerEx (chargeRequestOf md5Ex [] reqEx 25 d) = .error e ∧
          create_payment catEx md5Ex [] providerEx [] reqEx 0 =
            ⟨.failure e 500, [], some (chargeRequestOf md5Ex [] reqEx 25 d)⟩) ∨
       (∃ ch r, providerEx (chargeRequestOf md5Ex [] reqEx 25 d) = .ok ch ∧
          create_payment catEx md5Ex [] providerEx [] reqEx 0 =
            ⟨.success r ch.hosted_url, [] ++ [r],
             some (chargeRequestOf md5Ex [] reqEx 25 d)⟩ ∧
          r.status = .pending ∧ r.id = ch.id ∧ r.payment_url = ch.hosted_url ∧
          r.id ≠ "" ∧ r.payment_url ≠ "")) :=
  create_payment_valid_pending_or_provider_error catEx md5Ex [] providerEx []
    reqEx 0 25 rfl (by norm_num) (by decide) (by decide)
    (fun creq ch h => by
      cases h
      exact ⟨by decide, by decide⟩)

/-- C3 counterexample: for a concrete request carrying the customer email
a@b.c, the metadata handed to the charge provider contains that raw email
in its customer_email field — not only the one-way hash. -/
theorem create_payment_metadata_contains_raw_email :
    ((create_payment catEx md5Ex [] providerEx [] reqEx 0).providerCall.map
        (fun c => c.metadata.customer_email)) = some (some "a@b.c") := rfl

/-- C3 (amended): for every charge-creation request that reaches the
provider call and carries a customer email, the metadata sent to the
provider contains the md5 hash of the email in its customer_id field AND
the raw email itself in its customer_email field, alongside the crypto,
currency and exchange-rate fields. -/
theorem create_payment_metadata_hash_and_raw_email (cat : Catalog)
    (md5 : String → String) (rates : List (String × ℚ))
    (provider : ChargeRequest → Except String Charge)
    (history : List PaymentInfo) (req : CreateRequest) (now : ℚ) (a : ℚ)
    (em : String)
    (hamt : toFloat req.amount = .ok a) (hpos : 0 < a)
    (hcr : (cat.cryptoName (req.crypto.getD "BTC")).isSome)
    (hcur : req.currency.getD "USD" ∈ cat.currencies)
    (hemail : req.customer_email = some em) :
    ∃ d, descriptionOf cat (req.crypto.getD "BTC") req.description = .ok d ∧
      (create_payment cat md5 rates provider history req now).providerCall
        = some (chargeRequestOf md5 rates req a d) ∧
      (chargeRequestOf md5 rates req a d).metadata =
        ⟨md5 em, some em, req.crypto.getD "BTC", req.currency.getD "USD",
         (lookupRate rates (req.currency.getD "USD")).getD 1⟩ := by
  obtain ⟨nm, hnm⟩ := Option.isSome_iff_exists.mp hcr
  have hd : descriptionOf cat (req.crypto.getD "BTC") req.description
      = .ok (req.description.getD ("Payment in " ++ nm)) := by
    simp [descriptionOf, hnm]
  have hhas := hasCrypto_of_isSome_cryptoName cat (req.crypto.getD "BTC") hcr
  refine ⟨req.description.getD ("Payment in " ++ nm), hd, ?_, ?_⟩
  · cases hp : provider (chargeRequestOf md5 rates req a
        (req.description.getD ("Payment in " ++ nm))) <;>
      simp [create_payment, hamt, hd, validate_payment_amount, hpos, hhas,
        hcur, hp]
  · simp [chargeRequestOf, hemail]

/-- Witness for C3 (amended) at a concrete input: request with email
a@b.c, empty rate mapping, stub provider. -/
theorem create_payment_metadata_hash_and_raw_email_witness :
    ∃ d, descriptionOf catEx (reqEx.crypto.getD "BTC") reqEx.description = .ok d ∧
      (create_payment catEx md5Ex [] providerEx [] reqEx 0).providerCall
        = some (chargeRequestOf md5Ex [] reqEx 25 d) ∧
      (chargeRequestOf md5Ex [] reqEx 25 d).metadata =
        ⟨md5Ex "a@b.c", some "a@b.c", reqEx.crypto.getD "BTC",
         reqEx.currency.getD "USD",
         (lookupRate [] (reqEx.currency.getD "USD")).getD 1⟩ :=
  create_payment_metadata_hash_and_raw_email catEx md5Ex [] providerEx []
    reqEx 0 25 "a@b.c" rfl (by norm_num) (by decide) (by decide) rfl

/-- C6 counterexample: a request whose amount is the non-numeric string
abc is answered with the generic 500 error branch (the float conversion at
line 202 raises before validation runs), not with the 400 ValidationError
the claim requires; the provider is not invoked. -/
theorem create_payment_non_numeric_amount_500 :
    (create_payment catEx md5Ex [] providerEx []
        ⟨.nonNumeric "abc", some "USD", some "BTC", none, some "d"⟩ 0).response
      = .failure "could not convert string to float: abc" 500 ∧
    (create_payment catEx md5Ex [] providerEx []
        ⟨.nonNumeric "abc", some "USD", some "BTC", none, some "d"⟩ 0).providerCall
      = none := ⟨rfl, rfl⟩

/-- C6 (amended): a numeric amount ≤ 0 fails with the 400 ValidationError
response (provided the eagerly evaluated description default does not raise,
i.e. the crypto is in the catalog), and a non-numeric amount fails with
the generic 500 error from the float conversion; in both cases the external
charge provider is not invoked. -/
theorem create_payment_invalid_amount_behavior (cat : Catalog)
    (md5 : String → String) (rates : List (String × ℚ))
    (provider : ChargeRequest → Except String Charge)
    (history : List PaymentInfo) (req : CreateRequest) (now : ℚ) :
    (∀ a, toFloat req.amount = .ok a → a ≤ 0 →
        (cat.cryptoName (req.crypto.getD "BTC")).isSome →
        (create_payment cat md5 rates provider history req now).response
          = .failure "Invalid amount" 400 ∧
        (create_payment cat md5 rates provider history req now).providerCall
          = none) ∧
    (∀ s, req.amount = .nonNumeric s →
        (create_payment cat md5 rates provider history req now).response
          = .failure ("could not convert string to float: " ++ s) 500 ∧
        (create_payment cat md5 rates provider history req now).providerCall
          = none) := by
  constructor
  · intro a hamt hle hcr
    obtain ⟨nm, hnm⟩ := Option.isSome_iff_exists.mp hcr
    have hd : descriptionOf cat (req.crypto.getD "BTC") req.description
        = .ok (req.description.getD ("Payment in " ++ nm)) := by
      simp [descriptionOf, hnm]
    have hout : create_payment cat md5 rates provider history req now
        = ⟨.failure "Invalid amount" 400, history, none⟩ := by
      simp [create_payment, hamt, hd, validate_payment_amount, not_lt.mpr hle]
    exact ⟨by rw [hout], by rw [hout]⟩
  · intro s hs
    have hout : create_payment cat md5 rates provider history req now
        = ⟨.failure ("could not convert string to float: " ++ s) 500,
           history, none⟩ := by
      simp [create_payment, hs, toFloat]
    exact ⟨by rw [hout], by rw [hout]⟩

/-- Witness for C6 (amended) at concrete inputs: amount -1 yields the 400
ValidationError without a provider call; amount xy yields the 500 float
conversion error without a provider call. -/
theorem create_payment_invalid_amount_behavior_witness :
    ((create_payment catEx md5Ex [] providerEx []
        ⟨.numeric (-1), some "USD", some "BTC", none, none⟩ 0).response
      = .failure "Invalid amount" 400 ∧
     (create_payment catEx md5Ex [] providerEx []
        ⟨.numeric (-1), some "USD", some "BTC", none, none⟩ 0).providerCall
      = none) ∧
    ((create_payment catEx md5Ex [] providerEx []
        ⟨.nonNumeric "xy", some "USD", some "BTC", none, none⟩ 0).response
      = .failure ("could not convert string to float: " ++ "xy") 500 ∧
     (create_payment catEx md5Ex [] providerEx []
        ⟨.nonNumeric "xy", some "USD", some "BTC", none, none⟩ 0).providerCall
      = none) :=
  ⟨(create_payment_invalid_amount_behavior catEx md5Ex [] providerEx []
      ⟨.numeric (-1), some "USD", some "BTC", none, none⟩ 0).1 (-1) rfl
      (by norm_num) (by decide),
   (create_payment_invalid_amount_behavior catEx md5Ex [] providerEx []
      ⟨.nonNumeric "xy", some "USD", some "BTC", none, none⟩ 0).2 "xy" rfl⟩

/-- C7 counterexample: with an empty rate mapping (no rate for USD), the
record created for a concrete valid request carries exchange rate 1 — the
default of the dict read at line 220 — not the null the claim requires. -/
theorem create_payment_missing_rate_not_null :
    responseExchangeRate
        (create_payment catEx md5Ex [] providerEx [] reqEx 0).response
      = some 1 ∧
    responseExchangeRate
        (create_payment catEx md5Ex [] providerEx [] reqEx 0).response
      ≠ none := by
  constructor
  · rfl
  · intro h
    rw [show responseExchangeRate
        (create_payment catEx md5Ex [] providerEx [] reqEx 0).response
      = some 1 from rfl] at h
    exact Option.noConfusion h

/-- C7 (amended): when the exchange-rate mapping has no entry for the
quoted currency, a successfully created payment record carries the default
exchange rate 1 (absence tolerated, not an error); and the reconciliation
handler never changes the exchange-rate field of any stored record, so the
rate is never recomputed retroactively. -/
theorem create_payment_missing_rate_defaults_one :
    (∀ (cat : Catalog) (md5 : String → String) (rates : List (String × ℚ))
        (provider : ChargeRequest → Except String Charge)
        (history : List PaymentInfo) (req : CreateRequest) (now : ℚ)
        (r : PaymentInfo) (url : String),
      lookupRate rates (req.currency.getD "USD") = none →
      (create_payment cat md5 rates provider history req now).response
        = .success r url →
      r.exchange_rate = some 1) ∧
    (∀ (h : List PaymentInfo) (cid : String) (t : ℚ),
      ((webhook (.ok ⟨"charge:confirmed", cid⟩) h t).1).map
          (fun p => p.exchange_rate)
        = h.map (fun p => p.exchange_rate)) := by
  constructor
  · intro cat md5 rates provider history req now r url hmiss
    unfold create_payment
    dsimp only
    split
    · simp
    · split
      · simp
      · split
        · simp
        · split
          · simp
          · split
            · simp
            · split
              · simp
              · intro hsucc
                rw [show
                    (⟨.success _ _, _, _⟩ : CreateOutcome).response
                      = .success _ _ from rfl] at hsucc
                injection hsucc with h1 h2
                subst h1
                simp [hmiss]
  · intro h cid t
    simp [webhook, confirmUpdate_map_exchange_rate]

/-- Witness for C7 (amended) at a concrete input: the record created from
the spec §8 scenario with an empty rate mapping carries rate 1. -/
theorem create_payment_missing_rate_defaults_one_witness :
    recEx.exchange_rate = some 1 :=
  create_payment_missing_rate_defaults_one.1 catEx md5Ex [] providerEx []
    reqEx 0 recEx "https://pay.example/ch_1" rfl rfl

end CryptoPay
